import Mathlib

/-!
Verification of the ameli-scraper repository against its specification.

The development shallowly embeds the source files:
  * `src/geocoder.py`  — the coordinate resolver `get_city_coordinates`;
  * `src/session.py`   — the session bootstrap `create_authenticated_session`;
  * `src/scraper.py`   — the search client `search_doctors_by_coordinates`
    and the orchestrator `scrape_doctors_for_city`;
  * `src/models.py`    — the `City` and `Doctor` rows;
  * `src/database.py`, `src/main.py` — commit/rollback discipline.

Modelling conventions:
  * Coordinate values are kept as the decimal strings the program formats,
    stores and forwards; the program never performs arithmetic on them.
  * A Python function that can raise is embedded as `Except String α`;
    `.error` is an exception escaping the function, `.ok` a normal return.
  * A JSON object field that may be absent is an `Option`; where Python
    dict truthiness of a possibly-non-empty dict matters, an `extra` flag
    records whether the dict carries keys beyond the modelled ones.
  * HTTP traffic is an oracle value (`GeoOutcome`, `SearchOutcome`, the
    fetched page body) supplied as input to the embedded functions.
-/

namespace Ameli

/-! ## Geocoder data model (src/geocoder.py) -/

/-- The dictionary returned by `get_city_coordinates` on success:
keys `center_lat`, `center_lng`, `bbox`. -/
structure Resolved where
  center_lat : String
  center_lng : String
  bbox : String
deriving DecidableEq

/-- JSON object at `geometry.centre`: its `coordinates` value is a list of
numbers (modelled as decimal strings). -/
structure Centre where
  coordinates : List String
deriving DecidableEq

/-- JSON object at `geometry.bbox`: its `coordinates` value is a list of
rings, each ring a list of `[longitude, latitude]` pairs. -/
structure BboxObj where
  coordinates : List (List (String × String))
deriving DecidableEq

/-- JSON object at `geometry`; `centre` / `bbox` keys may be absent
(a bare `[...]` access on a missing key raises `KeyError`). -/
structure Geometry where
  centre : Option Centre
  bbox : Option BboxObj
deriving DecidableEq

/-- One element of the geocoding response array. -/
structure GeoResult where
  geometry : Option Geometry
deriving DecidableEq

/-- Outcome of the geocoding HTTP call.  `transportError` is any
`requests.exceptions.RequestException`: timeout, connection failure, or a
non-2xx status raised by `response.raise_for_status()`.  `ok` carries the
decoded JSON array. -/
inductive GeoOutcome where
  | transportError (msg : String)
  | ok (data : List GeoResult)
deriving DecidableEq

/-- Python `",".join(strings)`. -/
def commaJoin : List String → String
  | [] => ""
  | [a] => a
  | a :: rest => a ++ "," ++ commaJoin rest

/-- Line 60 of src/geocoder.py:
`",".join([f"{lon},{lat}" for lon, lat in bbox_coordinates])`. -/
def bbox_string (ps : List (String × String)) : String :=
  commaJoin (ps.map fun p => p.1 ++ "," ++ p.2)

/-- `get_city_coordinates` from src/geocoder.py, as a function of the HTTP
outcome.  Only `RequestException` is caught (returning `None`, modelled
`.ok none`); a `KeyError` / `IndexError` / unpack `ValueError` while
digging into the JSON escapes the function (modelled `.error`). -/
def get_city_coordinates : GeoOutcome → Except String (Option Resolved)
  | .transportError _ => .ok none
  | .ok [] => .ok none
  | .ok (first :: _) =>
    match first.geometry with
    | none => .error "KeyError: geometry"
    | some g =>
      match g.centre with
      | none => .error "KeyError: centre"
      | some c =>
        match c.coordinates with
        | [lng, lat] =>
          match g.bbox with
          | none => .error "KeyError: bbox"
          | some b =>
            match b.coordinates with
            | [] => .error "IndexError: bbox coordinates"
            | inner :: _ =>
              .ok (some { center_lat := lat, center_lng := lng,
                          bbox := bbox_string inner })
        | _ => .error "ValueError: cannot unpack centre coordinates"

/-! ## Session bootstrap (src/session.py)

Line 36 searches the fetched page for the fixed pattern
`<meta\s+name="csrf-token"\s+content="([^"]+)"` (Python `re.search`:
leftmost match, greedy repetition).  The matcher below implements exactly
this pattern over the page's character sequence. -/

/-- Python regex class `\s` (whitespace), on the characters that can occur
in an HTML page: space, tab, newline, carriage return, vertical tab,
form feed. -/
def isPySpace (c : Char) : Bool :=
  c == ' ' || c == '\t' || c == '\n' || c == '\r' || c == '\x0b' || c == '\x0c'

/-- Consume the literal `lit` from the front of `s`. -/
def dropLit : List Char → List Char → Option (List Char)
  | [], s => some s
  | _ :: _, [] => none
  | c :: cs, d :: ds => if c == d then dropLit cs ds else none

/-- Consume one-or-more whitespace characters, greedily (regex `\s+`). -/
def dropWs1 : List Char → Option (List Char)
  | [] => none
  | c :: cs => if isPySpace c then some (cs.dropWhile isPySpace) else none

/-- Match the capture group `([^"]+)"`: one-or-more non-quote characters
followed by the closing quote; yields the captured token and the rest. -/
def grabTok (s : List Char) : Option (String × List Char) :=
  match s.takeWhile (fun c => c != '"') with
  | [] => none
  | t1 :: ts =>
    match s.dropWhile (fun c => c != '"') with
    | '"' :: rs => some (String.mk (t1 :: ts), rs)
    | _ => none

/-- Try the whole pattern at the start of `s`. -/
def matchCsrfAt (s : List Char) : Option String := do
  let s1 ← dropLit "<meta".data s
  let s2 ← dropWs1 s1
  let s3 ← dropLit "name=\"csrf-token\"".data s2
  let s4 ← dropWs1 s3
  let s5 ← dropLit "content=\"".data s4
  let (tok, _) ← grabTok s5
  pure tok

/-- `re.search`: try the pattern at every position, leftmost match wins. -/
def findCsrf : List Char → Option String
  | [] => none
  | c :: rest =>
    match matchCsrfAt (c :: rest) with
    | some tok => some tok
    | none => findCsrf rest

/-- The `RuntimeError` raised on line 40 of src/session.py, together with
the response-body excerpt `res.text[:500]` logged on line 39. -/
structure SessionError where
  msg : String
  excerpt : String
deriving DecidableEq

/-- The authenticated session returned by `create_authenticated_session`:
the headers installed in step 3.  The `correlationID` header is a fresh
random UUID (nondeterministic, irrelevant to every claim), so only the
captured `X-CSRF-TOKEN` header value is modelled. -/
structure SessionCtx where
  csrf_token : String
deriving DecidableEq

/-- `create_authenticated_session` from src/session.py, as a function of
the fetched page body (a transport error during the page GET would also
propagate uncaught; the claims concern the token-extraction step, so the
body of a completed fetch is the input). -/
def create_authenticated_session (page : String) : Except SessionError SessionCtx :=
  match findCsrf page.data with
  | none =>
    .error { msg := "Could not extract CSRF token from search page.",
             excerpt := String.mk (page.data.take 500) }
  | some tok => .ok { csrf_token := tok }

/-- Declarative reading of the fixed pattern: `s` begins with
`<meta`, one-or-more whitespace, `name="csrf-token"`, one-or-more
whitespace, `content="`, then the non-empty quote-free token and the
closing quote. -/
def MatchesAt (s : List Char) (tok : String) : Prop :=
  ∃ ws1 ws2 rest,
    s = "<meta".data ++ ws1 ++ "name=\"csrf-token\"".data ++ ws2 ++
        "content=\"".data ++ tok.data ++ '"' :: rest ∧
    ws1 ≠ [] ∧ (∀ c ∈ ws1, isPySpace c = true) ∧
    ws2 ≠ [] ∧ (∀ c ∈ ws2, isPySpace c = true) ∧
    tok.data ≠ [] ∧ (∀ c ∈ tok.data, c ≠ '"')

/-- The page contains a match of the pattern at some position. -/
def HasCsrfMatch (s : List Char) : Prop :=
  ∃ i tok, MatchesAt (s.drop i) tok

/-! ## Search payload and provider mapping (src/scraper.py) -/

/-- JSON object at `profession.specialite`. -/
structure Specialite where
  libelle : Option String
deriving DecidableEq

/-- The `profession` JSON object.  `extra` records whether the object has
keys other than `specialite`: Python dict truthiness
(`if doctor_data.get("profession")`) is False exactly for an empty dict. -/
structure Profession where
  specialite : Option Specialite
  extra : Bool
deriving DecidableEq

/-- JSON object at `geocode`. -/
structure Geocode where
  latitude : Option String
  longitude : Option String
deriving DecidableEq

/-- JSON object at `coordonnees`. -/
structure Coordonnees where
  numTel : Option String
deriving DecidableEq

/-- One entry of the search payload's `data` list; every key may be
absent. -/
structure DoctorEntry where
  prenom : Option String
  nom : Option String
  profession : Option Profession
  voie : Option String
  complement : Option String
  ville : Option String
  codePostal : Option String
  geocode : Option Geocode
  coordonnees : Option Coordonnees
  carteVitale : Option Bool
deriving DecidableEq

/-- Python truthiness of a present `profession` dict value. -/
def professionTruthy (p : Profession) : Bool :=
  p.specialite.isSome || p.extra

/-- The decoded search response body.  `extra` records keys other than
`data`, for dict truthiness of `if not doctors_data`. -/
structure SearchPayload where
  data : Option (List DoctorEntry)
  extra : Bool
deriving DecidableEq

/-- Python truthiness of the decoded payload dict. -/
def payloadTruthy (p : SearchPayload) : Bool :=
  p.data.isSome || p.extra

/-- The search HTTP response: declared `Content-Type` header
(`""` when the header is absent) and decoded body. -/
structure SearchHttpResponse where
  contentType : String
  payload : SearchPayload
deriving DecidableEq

/-- Outcome of the search HTTP call.  `exn` is any exception inside the
`try` block (network failure, JSON decode failure, ...), all caught by the
bare `except Exception` on line 61 of src/scraper.py. -/
inductive SearchOutcome where
  | exn (msg : String)
  | resp (r : SearchHttpResponse)
deriving DecidableEq

/-- `needle` is a contiguous run at the front of `hay`. -/
def charsStartWith : List Char → List Char → Bool
  | [], _ => true
  | _ :: _, [] => false
  | c :: cs, d :: ds => c == d && charsStartWith cs ds

/-- `needle` occurs contiguously somewhere in `hay`. -/
def charsContain (needle : List Char) : List Char → Bool
  | [] => needle.isEmpty
  | d :: ds => charsStartWith needle (d :: ds) || charsContain needle ds

/-- Python `needle in hay` on strings (line 54: `"application/json" not in
content_type`). -/
def strContains (hay needle : String) : Bool :=
  charsContain needle.data hay.data

/-- `search_doctors_by_coordinates` from src/scraper.py (lines 19-62), as
a function of the HTTP outcome.  Returns `none` (`None`) when the declared
content type lacks the JSON marker or any exception is raised; otherwise
the decoded payload.  The query parameters built on lines 32-39 (`nom`,
`idProfession`, `centre = f"{center_lng},{center_lat}"`, `bbox`,
`bboxElargie`, `professionType`) do not affect the returned value. -/
def search_doctors_by_coordinates (out : SearchOutcome) (_profession_id : Nat)
    (_center_lat _center_lng _bbox_coordinates : String) :
    Option SearchPayload :=
  match out with
  | .exn _ => none
  | .resp r =>
    if strContains r.contentType "application/json" then some r.payload
    else none

/-- A row of the `doctors` table (src/models.py).  Columns are nullable;
`vitale_card` holds the value of `doctor_data.get("carteVitale", False)`. -/
structure DoctorRow where
  first_name : Option String
  last_name : Option String
  specialty : Option String
  city_id : Nat
  address : Option String
  office_name : Option String
  city : Option String
  postal_code : Option String
  latitude : Option String
  longitude : Option String
  phone_number : Option String
  vitale_card : Option Bool
deriving DecidableEq

/-- Lines 129-131 of src/scraper.py:
`doctor_data["profession"]["specialite"]["libelle"]
 if doctor_data.get("profession") else None`.
Raises `KeyError` (modelled `.error`) when a truthy `profession` dict
lacks the nested `specialite` or `libelle` key. -/
def specialtyOf (d : DoctorEntry) : Except String (Option String) :=
  match d.profession with
  | none => .ok none
  | some p =>
    if professionTruthy p then
      match p.specialite with
      | none => .error "KeyError: specialite"
      | some s =>
        match s.libelle with
        | none => .error "KeyError: libelle"
        | some l => .ok (some l)
    else .ok none

/-- Mapping one payload entry into a `models.Doctor` row
(lines 126-142 of src/scraper.py). -/
def map_doctor (city_id : Nat) (d : DoctorEntry) : Except String DoctorRow :=
  match specialtyOf d with
  | .error e => .error e
  | .ok specialty => .ok {
    first_name := d.prenom
    last_name := d.nom
    specialty := specialty
    city_id := city_id
    address := d.voie
    office_name := d.complement
    city := d.ville
    postal_code := d.codePostal
    latitude := (d.geocode.getD { latitude := none, longitude := none }).latitude
    longitude := (d.geocode.getD { latitude := none, longitude := none }).longitude
    phone_number := (d.coordonnees.getD { numTel := none }).numTel
    vitale_card := some (d.carteVitale.getD false) }

/-! ## Storage and the orchestrator -/

/-- A row of the `cities` table (src/models.py); `city_id` is the
auto-assigned identity. -/
structure CityRow where
  city_id : Nat
  city_name : String
  center_lat : String
  center_lng : String
  bbox : String
deriving DecidableEq

/-- The committed database state; `nextCityId` models the autoincrement
counter for `cities.city_id`. -/
structure DB where
  cities : List CityRow
  doctors : List DoctorRow
  nextCityId : Nat
deriving DecidableEq

/-- Line 77 of src/scraper.py:
`db.query(models.City).filter(models.City.city_name == city_name).first()`. -/
def findCity (db : DB) (name : String) : Option CityRow :=
  db.cities.find? (fun c => c.city_name == name)

/-- The external-world oracle for one orchestration run: the geocoding
response (consumed only if a geocoding request is issued), the bootstrap
page body, and the search response. -/
structure Env where
  geo : GeoOutcome
  page : String
  search : SearchOutcome
deriving DecidableEq

/-- The arguments of a call to `search_doctors_by_coordinates`
(line 117 of src/scraper.py). -/
structure SearchCall where
  profession_id : Nat
  center_lat : String
  center_lng : String
  bbox : String
deriving DecidableEq

instance exceptDecEq {ε α : Type} [DecidableEq ε] [DecidableEq α] :
    DecidableEq (Except ε α)
  | .error a, .error b =>
    if h : a = b then .isTrue (by rw [h])
    else .isFalse (fun he => h (by injection he))
  | .error _, .ok _ => .isFalse (fun h => Except.noConfusion h)
  | .ok _, .error _ => .isFalse (fun h => Except.noConfusion h)
  | .ok a, .ok b =>
    if h : a = b then .isTrue (by rw [h])
    else .isFalse (fun he => h (by injection he))

/-- Result of one orchestration run: the committed database state (a raise
discards only uncommitted pending rows — `db.rollback()` in src/main.py),
the number of geocoding requests issued, the search calls issued, and
whether the run returned normally or raised. -/
structure RunResult where
  db : DB
  geoRequests : Nat
  searchCalls : List SearchCall
  outcome : Except String Unit
deriving DecidableEq

/-- Lines 114-146 of src/scraper.py: bootstrap the session, search, map
the provider list, and commit the doctor rows in one batch.  `db` is the
committed state on entry; `geoReq` the geocoding requests already
issued. -/
def runSearchPhase (env : Env) (db : DB) (geoReq : Nat) (cid : Nat)
    (center_lat center_lng bbox : String) (profession_id : Nat) : RunResult :=
  match create_authenticated_session env.page with
  | .error e =>
    { db := db, geoRequests := geoReq, searchCalls := [], outcome := .error e.msg }
  | .ok _ctx =>
    let call : SearchCall := { profession_id, center_lat, center_lng, bbox }
    match search_doctors_by_coordinates env.search profession_id center_lat center_lng bbox with
    | none =>
      { db := db, geoRequests := geoReq, searchCalls := [call], outcome := .ok () }
    | some payload =>
      if payloadTruthy payload then
        match (payload.data.getD []).mapM (map_doctor cid) with
        | .error e =>
          { db := db, geoRequests := geoReq, searchCalls := [call], outcome := .error e }
        | .ok rows =>
          { db := { db with doctors := db.doctors ++ rows },
            geoRequests := geoReq, searchCalls := [call], outcome := .ok () }
      else
        { db := db, geoRequests := geoReq, searchCalls := [call], outcome := .ok () }

/-- `scrape_doctors_for_city` from src/scraper.py (lines 71-146): look the
city up in storage; on a miss geocode it and commit a new `City` row
(first commit point); then run the search phase (second commit point). -/
def scrape_doctors_for_city (env : Env) (db : DB) (city_name : String)
    (profession_id : Nat) : RunResult :=
  match findCity db city_name with
  | some c =>
    runSearchPhase env db 0 c.city_id c.center_lat c.center_lng c.bbox profession_id
  | none =>
    match get_city_coordinates env.geo with
    | .error e =>
      { db := db, geoRequests := 1, searchCalls := [], outcome := .error e }
    | .ok none =>
      { db := db, geoRequests := 1, searchCalls := [], outcome := .ok () }
    | .ok (some coords) =>
      let row : CityRow :=
        { city_id := db.nextCityId, city_name := city_name,
          center_lat := coords.center_lat, center_lng := coords.center_lng,
          bbox := coords.bbox }
      let db2 : DB :=
        { cities := db.cities ++ [row], doctors := db.doctors,
          nextCityId := db.nextCityId + 1 }
      runSearchPhase env db2 1 row.city_id coords.center_lat coords.center_lng
        coords.bbox profession_id

/-! ## Spec-side definitions and concrete instances -/

/-- Spec wording for the bounding-box serialization: the flat sequence
`lon1, lat1, lon2, lat2, ..., lonN, latN` of coordinate values, in input
order. -/
def flatCoords : List (String × String) → List String
  | [] => []
  | p :: ps => p.1 :: p.2 :: flatCoords ps

/-- The entries on which the provider mapping cannot raise: the
`profession` key is absent, or its dict is empty (falsy), or the nested
`specialite.libelle` path is fully present. -/
def professionSafe (d : DoctorEntry) : Bool :=
  match d.profession with
  | none => true
  | some p =>
    if professionTruthy p then
      match p.specialite with
      | some s => s.libelle.isSome
      | none => false
    else true

/-- A payload entry with every optional key absent. -/
def emptyEntry : DoctorEntry :=
  { prenom := none, nom := none, profession := none, voie := none,
    complement := none, ville := none, codePostal := none, geocode := none,
    coordonnees := none, carteVitale := none }

/-- The row `map_doctor 0 emptyEntry` produces. -/
def emptyRow : DoctorRow :=
  { first_name := none, last_name := none, specialty := none, city_id := 0,
    address := none, office_name := none, city := none, postal_code := none,
    latitude := none, longitude := none, phone_number := none,
    vitale_card := some false }

/-- A payload entry whose `profession` dict is present and non-empty but
lacks the `specialite` key (e.g. `{"profession": {"code": "x"}}`). -/
def badProfessionEntry : DoctorEntry :=
  { prenom := some "A", nom := some "B",
    profession := some { specialite := none, extra := true },
    voie := none, complement := none, ville := none, codePostal := none,
    geocode := none, coordonnees := none, carteVitale := none }

/-- A stored city row. -/
def cityParis : CityRow :=
  { city_id := 1, city_name := "Paris", center_lat := "48.85",
    center_lng := "2.35", bbox := "2.2,48.8,2.4,48.9" }

/-- A database already holding `cityParis`. -/
def dbWithParis : DB :=
  { cities := [cityParis], doctors := [], nextCityId := 2 }

/-- An empty database. -/
def dbEmpty : DB :=
  { cities := [], doctors := [], nextCityId := 1 }

/-- A page body that matches the CSRF pattern. -/
def pageGood : String := "<meta name=\"csrf-token\" content=\"tok123\">"

/-- A geocoding success: one result with centre `[lng, lat]` and a
two-vertex bounding ring. -/
def goodGeo : GeoOutcome :=
  .ok [{ geometry := some
          { centre := some { coordinates := ["5.38", "43.28"] },
            bbox := some { coordinates := [[("5.2", "43.1"), ("5.5", "43.4")]] } } }]

/-- The resolver's output on `goodGeo`. -/
def resolvedMarseille : Resolved :=
  { center_lat := "43.28", center_lng := "5.38", bbox := "5.2,43.1,5.5,43.4" }

/-- An environment whose search call times out. -/
def envQuiet : Env := { geo := .ok [], page := "", search := .exn "timeout" }

/-- An environment that geocodes successfully and then times out. -/
def envGeo : Env := { geo := goodGeo, page := "", search := .exn "timeout" }

/-- A search response that is an anti-bot HTML block page. -/
def respBlocked : SearchHttpResponse :=
  { contentType := "text/html", payload := { data := some [], extra := false } }

/-- An environment whose search response is `respBlocked`. -/
def envBlocked : Env := { geo := .ok [], page := pageGood, search := .resp respBlocked }

/-- An environment whose search payload holds one `badProfessionEntry`. -/
def envBadEntry : Env :=
  { geo := .ok [], page := pageGood,
    search := .resp { contentType := "application/json; charset=utf-8",
                      payload := { data := some [badProfessionEntry], extra := false } } }

/-! ## Generic list helpers -/

theorem takeWhileAppEq (p : Char → Bool) (l r : List Char)
    (hl : ∀ c ∈ l, p c = true) (hr : ∀ a, r.head? = some a → p a = false) :
    (l ++ r).takeWhile p = l := by
  induction l with
  | nil =>
    cases r with
    | nil => rfl
    | cons a rs =>
      have ha := hr a rfl
      simp [List.takeWhile_cons, ha]
  | cons c cs ih =>
    have hc := hl c (by simp)
    simp only [List.cons_append, List.takeWhile_cons, hc]
    simp [ih (fun x hx => hl x (by simp [hx]))]

theorem dropWhileAppEq (p : Char → Bool) (l r : List Char)
    (hl : ∀ c ∈ l, p c = true) (hr : ∀ a, r.head? = some a → p a = false) :
    (l ++ r).dropWhile p = r := by
  induction l with
  | nil =>
    cases r with
    | nil => rfl
    | cons a rs =>
      have ha := hr a rfl
      simp [List.dropWhile_cons, ha]
  | cons c cs ih =>
    have hc := hl c (by simp)
    simp only [List.cons_append, List.dropWhile_cons, hc]
    simp [ih (fun x hx => hl x (by simp [hx]))]

/-! ## Matcher correctness (src/session.py, line 36) -/

theorem dropLit_sound : ∀ (lit s r : List Char), dropLit lit s = some r → s = lit ++ r := by
  intro lit
  induction lit with
  | nil =>
    intro s r h
    simp only [dropLit, Option.some.injEq] at h
    simp [h]
  | cons c cs ih =>
    intro s r h
    cases s with
    | nil => exact absurd h (by simp [dropLit])
    | cons d ds =>
      simp only [dropLit] at h
      split at h
      next hc =>
        have : c = d := by exact eq_of_beq hc
        subst this
        simp [ih ds r h]
      next => exact absurd h (by simp)

theorem dropLit_complete (lit r : List Char) : dropLit lit (lit ++ r) = some r := by
  induction lit with
  | nil => rfl
  | cons c cs ih => simp [dropLit, ih]

theorem dropWs1_sound {s r : List Char} (h : dropWs1 s = some r) :
    ∃ ws, s = ws ++ r ∧ ws ≠ [] ∧ ∀ c ∈ ws, isPySpace c = true := by
  cases s with
  | nil => exact absurd h (by simp [dropWs1])
  | cons c cs =>
    simp only [dropWs1] at h
    split at h
    next hc =>
      injection h with h
      refine ⟨c :: cs.takeWhile isPySpace, ?_, by simp, ?_⟩
      · rw [← h]
        simp [List.takeWhile_append_dropWhile]
      · intro x hx
        rcases List.mem_cons.mp hx with rfl | hx
        · exact hc
        · exact List.mem_takeWhile_imp hx
    next => exact absurd h (by simp)

theorem dropWs1_complete (ws r : List Char) (hne : ws ≠ [])
    (hws : ∀ c ∈ ws, isPySpace c = true)
    (hr : ∀ a, r.head? = some a → isPySpace a = false) :
    dropWs1 (ws ++ r) = some r := by
  cases ws with
  | nil => exact absurd rfl hne
  | cons c cs =>
    have hc := hws c (by simp)
    simp only [List.cons_append, dropWs1, hc, if_true]
    rw [dropWhileAppEq isPySpace cs r (fun x hx => hws x (by simp [hx])) hr]

theorem grabTok_sound {s : List Char} {tok : String} {rest : List Char}
    (h : grabTok s = some (tok, rest)) :
    s = tok.data ++ '"' :: rest ∧ tok.data ≠ [] ∧ ∀ c ∈ tok.data, c ≠ '"' := by
  unfold grabTok at h
  split at h
  next => exact absurd h (by simp)
  next t1 ts hts =>
    split at h
    next rs hrs =>
      injection h with h
      injection h with h1 h2
      subst h2
      have hs : s = (t1 :: ts) ++ '"' :: rs := by
        conv_lhs => rw [← List.takeWhile_append_dropWhile (p := fun c => c != '"') (l := s)]
        rw [hts, hrs]
      refine ⟨?_, ?_, ?_⟩
      · rw [← h1]; exact hs
      · rw [← h1]; simp
      · intro c hc
        rw [← h1] at hc
        have := List.mem_takeWhile_imp (p := fun c => c != '"') (l := s) (by rw [hts]; exact hc)
        simpa using this
    next => exact absurd h (by simp)

theorem grabTok_complete (t rest : List Char) (hne : t ≠ [])
    (ht : ∀ c ∈ t, c ≠ '"') :
    grabTok (t ++ '"' :: rest) = some (String.mk t, rest) := by
  have h1 : (t ++ '"' :: rest).takeWhile (fun c => c != '"') = t :=
    takeWhileAppEq _ _ _ (fun c hc => by simpa using ht c hc)
      (fun a ha => by
        simp only [List.head?_cons, Option.some.injEq] at ha
        subst ha
        decide)
  have h2 : (t ++ '"' :: rest).dropWhile (fun c => c != '"') = '"' :: rest :=
    dropWhileAppEq _ _ _ (fun c hc => by simpa using ht c hc)
      (fun a ha => by
        simp only [List.head?_cons, Option.some.injEq] at ha
        subst ha
        decide)
  unfold grabTok
  rw [h1, h2]
  cases t with
  | nil => exact absurd rfl hne
  | cons t1 ts => rfl

theorem matchCsrfAt_sound {s : List Char} {tok : String}
    (h : matchCsrfAt s = some tok) : MatchesAt s tok := by
  unfold matchCsrfAt at h
  cases h1 : dropLit "<meta".data s with
  | none => rw [h1] at h; exact absurd h (by simp)
  | some s1 =>
  rw [h1] at h
  simp only [Option.bind_eq_bind, Option.some_bind] at h
  cases h2 : dropWs1 s1 with
  | none => rw [h2] at h; exact absurd h (by simp)
  | some s2 =>
  rw [h2] at h
  simp only [Option.some_bind] at h
  cases h3 : dropLit "name=\"csrf-token\"".data s2 with
  | none => rw [h3] at h; exact absurd h (by simp)
  | some s3 =>
  rw [h3] at h
  simp only [Option.some_bind] at h
  cases h4 : dropWs1 s3 with
  | none => rw [h4] at h; exact absurd h (by simp)
  | some s4 =>
  rw [h4] at h
  simp only [Option.some_bind] at h
  cases h5 : dropLit "content=\"".data s4 with
  | none => rw [h5] at h; exact absurd h (by simp)
  | some s5 =>
  rw [h5] at h
  simp only [Option.some_bind] at h
  cases h6 : grabTok s5 with
  | none => rw [h6] at h; exact absurd h (by simp)
  | some pr =>
  rw [h6] at h
  obtain ⟨t, r⟩ := pr
  simp only [Option.some_bind, Option.pure_def, Option.some.injEq] at h
  subst h
  obtain ⟨h6a, h6b, h6c⟩ := grabTok_sound h6
  obtain ⟨ws2, hws2, hws2ne, hws2sp⟩ := dropWs1_sound h4
  obtain ⟨ws1, hws1, hws1ne, hws1sp⟩ := dropWs1_sound h2
  refine ⟨ws1, ws2, r, ?_, hws1ne, hws1sp, hws2ne, hws2sp, h6b, h6c⟩
  rw [dropLit_sound _ _ _ h1, hws1, dropLit_sound _ _ _ h3, hws2,
      dropLit_sound _ _ _ h5, h6a]
  simp [List.append_assoc]

theorem matchCsrfAt_complete {s : List Char} {tok : String}
    (h : MatchesAt s tok) : ∃ t2, matchCsrfAt s = some t2 := by
  obtain ⟨ws1, ws2, rest, hs, hw1ne, hw1, hw2ne, hw2, htne, htq⟩ := h
  subst hs
  refine ⟨tok, ?_⟩
  unfold matchCsrfAt
  simp only [List.append_assoc]
  rw [dropLit_complete]
  simp only [Option.bind_eq_bind, Option.some_bind]
  rw [dropWs1_complete ws1 _ hw1ne hw1 (fun a ha => by
    simp only [List.cons_append, List.head?_cons, Option.some.injEq] at ha
    subst ha
    decide)]
  simp only [Option.some_bind]
  rw [dropLit_complete]
  simp only [Option.some_bind]
  rw [dropWs1_complete ws2 _ hw2ne hw2 (fun a ha => by
    simp only [List.cons_append, List.head?_cons, Option.some.injEq] at ha
    subst ha
    decide)]
  simp only [Option.some_bind]
  rw [dropLit_complete]
  simp only [Option.some_bind]
  rw [grabTok_complete tok.data rest htne htq]
  rfl

theorem findCsrf_sound {s : List Char} {tok : String}
    (h : findCsrf s = some tok) : ∃ i, MatchesAt (s.drop i) tok := by
  induction s with
  | nil => exact absurd h (by simp [findCsrf])
  | cons c cs ih =>
    unfold findCsrf at h
    cases hm : matchCsrfAt (c :: cs) with
    | some t =>
      rw [hm] at h
      injection h with h
      subst h
      exact ⟨0, matchCsrfAt_sound hm⟩
    | none =>
      rw [hm] at h
      obtain ⟨i, hi⟩ := ih h
      exact ⟨i + 1, by simpa using hi⟩

theorem findCsrf_complete {s : List Char} (h : HasCsrfMatch s) :
    ∃ tok, findCsrf s = some tok := by
  obtain ⟨i, tok, hi⟩ := h
  induction s generalizing i with
  | nil =>
    exfalso
    obtain ⟨ws1, ws2, rest, heq, _⟩ := hi
    rw [List.drop_nil] at heq
    exact List.cons_ne_nil '"' rest (List.append_eq_nil.mp heq.symm).2
  | cons c cs ih =>
    cases i with
    | zero =>
      rw [List.drop_zero] at hi
      obtain ⟨t2, ht⟩ := matchCsrfAt_complete hi
      exact ⟨t2, by unfold findCsrf; rw [ht]⟩
    | succ j =>
      obtain ⟨t2, ht⟩ := ih j (by simpa using hi)
      cases hm : matchCsrfAt (c :: cs) with
      | some t => exact ⟨t, by unfold findCsrf; rw [hm]⟩
      | none => exact ⟨t2, by unfold findCsrf; rw [hm]; exact ht⟩

/-- C7: `create_authenticated_session` fails fatally — raises an exception
that propagates uncaught, with a diagnostic including a response-body
excerpt — exactly when the page body contains no match for the fixed
meta-tag pattern `name="csrf-token" content="<value>"`; on a match it
returns a session carrying the captured token header. -/
theorem c7_csrf_token_extraction (page : String) :
    (∀ e, create_authenticated_session page = .error e →
        ¬ HasCsrfMatch page.data ∧
        e.msg = "Could not extract CSRF token from search page." ∧
        e.excerpt = String.mk (page.data.take 500)) ∧
    (∀ ctx, create_authenticated_session page = .ok ctx →
        ∃ i, MatchesAt (page.data.drop i) ctx.csrf_token) := by
  constructor
  · intro e he
    unfold create_authenticated_session at he
    cases hf : findCsrf page.data with
    | none =>
      rw [hf] at he
      injection he with he1
      subst he1
      refine ⟨fun hm => ?_, rfl, rfl⟩
      obtain ⟨t2, ht⟩ := findCsrf_complete hm
      rw [hf] at ht
      exact Option.noConfusion ht
    | some tok =>
      rw [hf] at he
      exact Except.noConfusion he
  · intro ctx hc
    unfold create_authenticated_session at hc
    cases hf : findCsrf page.data with
    | none =>
      rw [hf] at hc
      exact Except.noConfusion hc
    | some tok =>
      rw [hf] at hc
      injection hc with hc1
      subst hc1
      exact findCsrf_sound hf

/-- Witness for C7 at concrete pages: `"hello"` has no match and produces
the fatal error with the body excerpt; `pageGood` yields a session whose
token header matches the pattern in the page. -/
theorem c7_witness :
    (¬ HasCsrfMatch "hello".data) ∧
    (∃ i, MatchesAt (pageGood.data.drop i) "tok123") :=
  ⟨((c7_csrf_token_extraction "hello").1
      { msg := "Could not extract CSRF token from search page.",
        excerpt := "hello" } rfl).1,
   (c7_csrf_token_extraction pageGood).2 { csrf_token := "tok123" } rfl⟩

/-! ## Geocoder claims -/

/-- C4: for every sequence of N `[longitude, latitude]` vertex pairs taken
from `geometry.bbox.coordinates[0]`, the resolver serializes it as the
flat comma-joined string `lon1,lat1,...,lonN,latN` with exactly 2N
comma-separated coordinate values, preserving the input order of the
pairs. -/
theorem c4_bbox_serialization (ps : List (String × String)) :
    bbox_string ps = commaJoin (flatCoords ps) ∧
    (flatCoords ps).length = 2 * ps.length := by
  constructor
  · induction ps with
    | nil => rfl
    | cons p ps ih =>
      cases ps with
      | nil => simp [bbox_string, flatCoords, commaJoin, String.append_assoc]
      | cons q qs =>
        simp only [bbox_string, List.map_cons, flatCoords, commaJoin] at *
        rw [ih]
        cases qs with
        | nil => simp [commaJoin, flatCoords, String.append_assoc]
        | cons u us => simp [commaJoin, flatCoords, String.append_assoc]
  · induction ps with
    | nil => rfl
    | cons p ps ih =>
      simp only [flatCoords, List.length_cons, ih]
      omega

/-- C5: the resolver returns NotFound (`None`) exactly when the geocoding
endpoint returns an empty result list or the network call raises a
transport-level error (timeout, connection failure, non-2xx status); in
those cases no exception propagates to the caller. -/
theorem c5_geocoder_notfound (out : GeoOutcome) :
    get_city_coordinates out = .ok none ↔
      ((∃ m, out = .transportError m) ∨ out = .ok []) := by
  constructor
  · intro h
    cases out with
    | transportError m => exact .inl ⟨m, rfl⟩
    | ok data =>
      cases data with
      | nil => exact .inr rfl
      | cons first rest =>
        exfalso
        unfold get_city_coordinates at h
        repeat' split at h
        all_goals simp_all
  · rintro (⟨m, rfl⟩ | rfl) <;> rfl

/-- C8: on a successful geocoding response, the resolver uses only the
first element of the result array, and extracts the center from
`geometry.centre.coordinates` interpreting it in (longitude, latitude)
order, so the returned `center_lng` is the first coordinate and the
returned `center_lat` is the second. -/
theorem c8_first_result_lng_lat (lng lat : String)
    (inner : List (String × String)) (more : List (List (String × String)))
    (rest : List GeoResult) :
    get_city_coordinates (.ok
        ({ geometry := some
            { centre := some { coordinates := [lng, lat] },
              bbox := some { coordinates := inner :: more } } } :: rest)) =
      .ok (some { center_lat := lat, center_lng := lng,
                  bbox := bbox_string inner }) := rfl

/-! ## Orchestrator helper lemmas -/

theorem runSearchPhase_geoRequests (env : Env) (db : DB) (g cid : Nat)
    (la ln bb : String) (pid : Nat) :
    (runSearchPhase env db g cid la ln bb pid).geoRequests = g := by
  unfold runSearchPhase
  repeat' split
  all_goals rfl

theorem runSearchPhase_cities (env : Env) (db : DB) (g cid : Nat)
    (la ln bb : String) (pid : Nat) :
    (runSearchPhase env db g cid la ln bb pid).db.cities = db.cities := by
  unfold runSearchPhase
  repeat' split
  all_goals rfl

theorem runSearchPhase_calls (env : Env) (db : DB) (g cid : Nat)
    (la ln bb : String) (pid : Nat) :
    ∀ call ∈ (runSearchPhase env db g cid la ln bb pid).searchCalls,
      call = { profession_id := pid, center_lat := la, center_lng := ln,
               bbox := bb } := by
  unfold runSearchPhase
  repeat' split
  all_goals intro call hc
  all_goals simp_all

theorem runSearchPhase_doctors_of_none (env : Env) (db : DB) (g cid : Nat)
    (la ln bb : String) (pid : Nat)
    (h : search_doctors_by_coordinates env.search pid la ln bb = none) :
    (runSearchPhase env db g cid la ln bb pid).db.doctors = db.doctors := by
  unfold runSearchPhase
  split
  · rfl
  · rw [h]

theorem runSearchPhase_of_none (env : Env) (db : DB) (g cid : Nat)
    (la ln bb : String) (pid : Nat) (ctx : SessionCtx)
    (hctx : create_authenticated_session env.page = .ok ctx)
    (h : search_doctors_by_coordinates env.search pid la ln bb = none) :
    runSearchPhase env db g cid la ln bb pid =
      { db := db, geoRequests := g,
        searchCalls := [{ profession_id := pid, center_lat := la,
                          center_lng := ln, bbox := bb }],
        outcome := .ok () } := by
  unfold runSearchPhase
  rw [hctx, h]

/-! ## Orchestrator claims -/

/-- C1: for every city name for which a City row already exists in
storage, run (`scrape_doctors_for_city`) issues zero geocoding requests
and uses the stored `center_lat`, `center_lng` and `bbox` of that row for
the subsequent search. -/
theorem c1_cache_hit (env : Env) (db : DB) (name : String) (pid : Nat)
    (c : CityRow) (h : findCity db name = some c) :
    (scrape_doctors_for_city env db name pid).geoRequests = 0 ∧
    (scrape_doctors_for_city env db name pid).db.cities = db.cities ∧
    ∀ call ∈ (scrape_doctors_for_city env db name pid).searchCalls,
      call = { profession_id := pid, center_lat := c.center_lat,
               center_lng := c.center_lng, bbox := c.bbox } := by
  unfold scrape_doctors_for_city
  rw [h]
  exact ⟨runSearchPhase_geoRequests env db 0 c.city_id c.center_lat c.center_lng c.bbox pid,
         runSearchPhase_cities env db 0 c.city_id c.center_lat c.center_lng c.bbox pid,
         runSearchPhase_calls env db 0 c.city_id c.center_lat c.center_lng c.bbox pid⟩

/-- Witness for C1: with `cityParis` already stored, the run issues no
geocoding request and leaves the cities table unchanged. -/
theorem c1_witness :
    (scrape_doctors_for_city envQuiet dbWithParis "Paris" 37).geoRequests = 0 ∧
    (scrape_doctors_for_city envQuiet dbWithParis "Paris" 37).db.cities =
      dbWithParis.cities :=
  ⟨(c1_cache_hit envQuiet dbWithParis "Paris" 37 cityParis rfl).1,
   (c1_cache_hit envQuiet dbWithParis "Paris" 37 cityParis rfl).2.1⟩

/-- C2: for every city name with no City row in storage, run issues
exactly one geocoding request, and when that request succeeds, exactly
one new City row is created whose `city_name` equals the input name and
whose `center_lat`, `center_lng` and `bbox` equal the resolver's output
fields verbatim (latitude and longitude not swapped relative to the
resolver's contract). -/
theorem c2_cache_miss (env : Env) (db : DB) (name : String) (pid : Nat)
    (h : findCity db name = none) :
    (scrape_doctors_for_city env db name pid).geoRequests = 1 ∧
    ∀ coords, get_city_coordinates env.geo = .ok (some coords) →
      (scrape_doctors_for_city env db name pid).db.cities =
        db.cities ++ [{ city_id := db.nextCityId, city_name := name,
                        center_lat := coords.center_lat,
                        center_lng := coords.center_lng,
                        bbox := coords.bbox }] := by
  unfold scrape_doctors_for_city
  rw [h]
  constructor
  · cases hg : get_city_coordinates env.geo with
    | error e => rfl
    | ok v =>
      cases v with
      | none => rfl
      | some coords =>
        exact runSearchPhase_geoRequests env _ 1 db.nextCityId coords.center_lat
          coords.center_lng coords.bbox pid
  · intro coords hc
    rw [hc]
    exact runSearchPhase_cities env _ 1 db.nextCityId coords.center_lat
      coords.center_lng coords.bbox pid

/-- Witness for C2: on an empty database, geocoding "Marseille" issues one
request and commits exactly one City row carrying the resolver's fields. -/
theorem c2_witness :
    (scrape_doctors_for_city envGeo dbEmpty "Marseille" 37).geoRequests = 1 ∧
    (scrape_doctors_for_city envGeo dbEmpty "Marseille" 37).db.cities =
      dbEmpty.cities ++ [{ city_id := 1, city_name := "Marseille",
                           center_lat := "43.28", center_lng := "5.38",
                           bbox := "5.2,43.1,5.5,43.4" }] :=
  ⟨(c2_cache_miss envGeo dbEmpty "Marseille" 37 rfl).1,
   (c2_cache_miss envGeo dbEmpty "Marseille" 37 rfl).2 resolvedMarseille rfl⟩

/-- C3 counterexample: a payload entry whose `profession` dict is present
and non-empty but lacks the nested `specialite` key makes the mapping
raise `KeyError`, and that exception fails the whole run (no doctor row is
committed), refuting the claim that every field access tolerates a
missing nested object. -/
theorem c3_counterexample :
    map_doctor 1 badProfessionEntry = .error "KeyError: specialite" ∧
    (scrape_doctors_for_city envBadEntry dbWithParis "Paris" 37).outcome =
      .error "KeyError: specialite" ∧
    (scrape_doctors_for_city envBadEntry dbWithParis "Paris" 37).db.doctors = [] := by
  refine ⟨rfl, ?_, ?_⟩ <;> rfl

theorem specialtyOf_ok_iff (d : DoctorEntry) :
    (∃ sp, specialtyOf d = .ok sp) ↔ professionSafe d = true := by
  unfold specialtyOf professionSafe
  cases d.profession with
  | none => simp
  | some p =>
    by_cases ht : professionTruthy p = true
    · simp only [ht, if_true]
      cases p.specialite with
      | none => simp
      | some s =>
        cases hl : s.libelle with
        | none => simp [hl]
        | some l => simp [hl]
    · simp [ht]

/-- C3 (amended): every top-level field access during mapping tolerates a
missing key (substituting an absent value), including a missing `geocode`
or `coordonnees` nested object and a missing or empty `profession`; the
mapping succeeds exactly on such entries, while a present non-empty
`profession` lacking the nested `specialite.libelle` path raises. -/
theorem c3_defensive_mapping (cid : Nat) (d : DoctorEntry) :
    ((∃ row, map_doctor cid d = .ok row) ↔ professionSafe d = true) ∧
    (∀ row, map_doctor cid d = .ok row →
      (d.prenom = none → row.first_name = none) ∧
      (d.nom = none → row.last_name = none) ∧
      (d.profession = none → row.specialty = none) ∧
      (d.voie = none → row.address = none) ∧
      (d.complement = none → row.office_name = none) ∧
      (d.ville = none → row.city = none) ∧
      (d.codePostal = none → row.postal_code = none) ∧
      (d.geocode = none → row.latitude = none ∧ row.longitude = none) ∧
      (d.coordonnees = none → row.phone_number = none)) := by
  constructor
  · constructor
    · rintro ⟨row, hrow⟩
      rw [← specialtyOf_ok_iff]
      unfold map_doctor at hrow
      split at hrow
      · exact absurd hrow (by simp)
      next sp hsp => exact ⟨sp, hsp⟩
    · intro hsafe
      obtain ⟨sp, hsp⟩ := (specialtyOf_ok_iff d).mpr hsafe
      exact ⟨_, by unfold map_doctor; rw [hsp]⟩
  · intro row hrow
    unfold map_doctor at hrow
    split at hrow
    · exact absurd hrow (by simp)
    next sp hsp =>
      injection hrow with hrow
      subst hrow
      refine ⟨fun h => by simp [h], fun h => by simp [h], fun h => ?_,
              fun h => by simp [h], fun h => by simp [h], fun h => by simp [h],
              fun h => by simp [h], fun h => by simp [h], fun h => by simp [h]⟩
      unfold specialtyOf at hsp
      rw [h] at hsp
      injection hsp with hsp
      simp [← hsp]

/-- Witness for C3 (amended): the all-absent entry maps successfully. -/
theorem c3_witness :
    ∃ row, map_doctor 0 emptyEntry = .ok row :=
  (c3_defensive_mapping 0 emptyEntry).1.mpr (by decide)

/-- C6: whenever the search response's declared content type does not
contain a JSON marker, the Provider Search Client returns Unavailable
(`None`) without raising, and consequently run creates no Provider rows
and lets no exception escape (given that the earlier stages — geocoding
and session bootstrap — did not independently raise). -/
theorem c6_non_json_response (env : Env) (db : DB) (name : String) (pid : Nat)
    (resp : SearchHttpResponse)
    (h1 : env.search = .resp resp)
    (h2 : strContains resp.contentType "application/json" = false)
    (h3 : ∃ ctx, create_authenticated_session env.page = .ok ctx)
    (h4 : ∃ v, get_city_coordinates env.geo = .ok v) :
    (∀ la ln bb, search_doctors_by_coordinates env.search pid la ln bb = none) ∧
    (scrape_doctors_for_city env db name pid).db.doctors = db.doctors ∧
    (scrape_doctors_for_city env db name pid).outcome = .ok () := by
  have hnone : ∀ la ln bb,
      search_doctors_by_coordinates env.search pid la ln bb = none := by
    intro la ln bb
    rw [h1]
    unfold search_doctors_by_coordinates
    simp [h2]
  obtain ⟨ctx, hctx⟩ := h3
  refine ⟨hnone, ?_, ?_⟩
  · cases hf : findCity db name with
    | some c =>
      unfold scrape_doctors_for_city
      rw [hf]
      exact runSearchPhase_doctors_of_none env db 0 c.city_id c.center_lat
        c.center_lng c.bbox pid (hnone _ _ _)
    | none =>
      unfold scrape_doctors_for_city
      rw [hf]
      obtain ⟨v, hv⟩ := h4
      rw [hv]
      cases v with
      | none => rfl
      | some coords =>
        exact runSearchPhase_doctors_of_none env _ 1 db.nextCityId
          coords.center_lat coords.center_lng coords.bbox pid (hnone _ _ _)
  · cases hf : findCity db name with
    | some c =>
      unfold scrape_doctors_for_city
      rw [hf]
      have hres : (runSearchPhase env db 0 c.city_id c.center_lat c.center_lng
          c.bbox pid).outcome = .ok () := by
        rw [runSearchPhase_of_none env db 0 c.city_id c.center_lat c.center_lng
          c.bbox pid ctx hctx (hnone _ _ _)]
      exact hres
    | none =>
      unfold scrape_doctors_for_city
      rw [hf]
      obtain ⟨v, hv⟩ := h4
      rw [hv]
      cases v with
      | none => rfl
      | some coords =>
        have hres : ∀ db2 : DB, (runSearchPhase env db2 1 db.nextCityId
            coords.center_lat coords.center_lng coords.bbox
            pid).outcome = .ok () := by
          intro db2
          rw [runSearchPhase_of_none env db2 1 db.nextCityId coords.center_lat
            coords.center_lng coords.bbox pid ctx hctx (hnone _ _ _)]
        exact hres _

/-- Witness for C6: a `text/html` block page yields no payload, no doctor
rows and a normal return. -/
theorem c6_witness :
    search_doctors_by_coordinates envBlocked.search 37 "43.28" "5.38" "bb" = none ∧
    (scrape_doctors_for_city envBlocked dbEmpty "Nice" 37).db.doctors =
      dbEmpty.doctors ∧
    (scrape_doctors_for_city envBlocked dbEmpty "Nice" 37).outcome = .ok () :=
  ⟨(c6_non_json_response envBlocked dbEmpty "Nice" 37 respBlocked rfl rfl
      ⟨{ csrf_token := "tok123" }, rfl⟩ ⟨none, rfl⟩).1 "43.28" "5.38" "bb",
   (c6_non_json_response envBlocked dbEmpty "Nice" 37 respBlocked rfl rfl
      ⟨{ csrf_token := "tok123" }, rfl⟩ ⟨none, rfl⟩).2.1,
   (c6_non_json_response envBlocked dbEmpty "Nice" 37 respBlocked rfl rfl
      ⟨{ csrf_token := "tok123" }, rfl⟩ ⟨none, rfl⟩).2.2⟩

/-- C9: once a City row is created and committed it is never updated and
never deleted by any later operation of the run — the cities table is
either unchanged or extended by exactly one new row — and the city commit
survives even when the provider search afterwards fails or yields no data
(the conclusion holds for every environment, including ones whose
bootstrap, search or mapping fails). -/
theorem c9_city_commit_persistence (env : Env) (db : DB) (name : String)
    (pid : Nat) :
    ((scrape_doctors_for_city env db name pid).db.cities = db.cities ∨
      ∃ row, row.city_name = name ∧
        (scrape_doctors_for_city env db name pid).db.cities =
          db.cities ++ [row]) ∧
    (findCity db name = none →
      ∀ coords, get_city_coordinates env.geo = .ok (some coords) →
        (scrape_doctors_for_city env db name pid).db.cities =
          db.cities ++ [{ city_id := db.nextCityId, city_name := name,
                          center_lat := coords.center_lat,
                          center_lng := coords.center_lng,
                          bbox := coords.bbox }]) := by
  constructor
  · cases hf : findCity db name with
    | some c =>
      left
      unfold scrape_doctors_for_city
      rw [hf]
      exact runSearchPhase_cities env db 0 c.city_id c.center_lat c.center_lng
        c.bbox pid
    | none =>
      unfold scrape_doctors_for_city
      rw [hf]
      cases hg : get_city_coordinates env.geo with
      | error e => left; rfl
      | ok v =>
        cases v with
        | none => left; rfl
        | some coords =>
          right
          refine ⟨{ city_id := db.nextCityId, city_name := name,
                    center_lat := coords.center_lat,
                    center_lng := coords.center_lng,
                    bbox := coords.bbox }, rfl, ?_⟩
          exact runSearchPhase_cities env _ 1 db.nextCityId coords.center_lat
            coords.center_lng coords.bbox pid
  · intro hnone coords hc
    unfold scrape_doctors_for_city
    rw [hnone, hc]
    exact runSearchPhase_cities env _ 1 db.nextCityId coords.center_lat
      coords.center_lng coords.bbox pid

/-- Witness for C9: the freshly committed "Lyon" row survives a search
that fails with a timeout. -/
theorem c9_witness :
    (scrape_doctors_for_city envGeo dbEmpty "Lyon" 37).db.cities =
      dbEmpty.cities ++ [{ city_id := 1, city_name := "Lyon",
                           center_lat := "43.28", center_lng := "5.38",
                           bbox := "5.2,43.1,5.5,43.4" }] :=
  (c9_city_commit_persistence envGeo dbEmpty "Lyon" 37).2 rfl resolvedMarseille rfl

/-- C10: for every provider entry in which the `carteVitale` key is
absent, the mapped Provider record's `vitale_card` flag is stored as the
boolean False — not as an empty/absent value — unlike the other optional
fields (such as `prenom`), which map to absent when missing. -/
theorem c10_carte_vitale_default (cid : Nat) (d : DoctorEntry)
    (h1 : d.carteVitale = none) (h2 : d.prenom = none) :
    ∀ row, map_doctor cid d = .ok row →
      row.vitale_card = some false ∧ row.vitale_card ≠ none ∧
      row.first_name = none := by
  intro row hrow
  unfold map_doctor at hrow
  split at hrow
  · exact absurd hrow (by simp)
  · injection hrow with hrow
    subst hrow
    simp [h1, h2]

/-- Witness for C10: the all-absent entry maps to a row whose
`vitale_card` is the boolean `false` while `first_name` is absent. -/
theorem c10_witness :
    emptyRow.vitale_card = some false ∧ emptyRow.vitale_card ≠ none ∧
    emptyRow.first_name = none :=
  c10_carte_vitale_default 0 emptyEntry rfl rfl emptyRow rfl

end Ameli
